import Mathlib

/-!
Verification of the `helper::ThreadPool` / `helper::ThreadPoolWorker` classes
of `src/include/ThreadPool.h` (repository CppHelperHeaders).

The development contains three layers, each translated from the source:

* a functional lifecycle model of `ThreadPool` (constructor, `addTask`,
  `waitUntilComplete`, destructor, `logMessage`), where the blocking poll
  loops of `waitUntilComplete` are modelled by their exit states under the
  canonical schedule in which the workers run to quiescence between polls;
* a sequential model of a single worker running `ThreadPoolWorker::operator()`
  over the task queue (`runTask` / `workerLoop1`);
* a small-step interleaving machine for the full system (several workers,
  a producer, the mutex and the condition variable), driven by an explicit
  schedule, used to exhibit reachable states of the concurrent code.
-/

set_option autoImplicit false

/-- Outcome of running a task body (`currentTask()` at ThreadPool.h:210).
A C++ task can finish normally, or throw.  The worker catches exactly
`const std::exception&` (ThreadPool.h:211), so we record with each thrown
fault whether the thrown object derives from `std::exception`. -/
inductive TaskResult
  | ok
  | raise (isStdExc : Bool) (msg : String)
  deriving DecidableEq

/-- A task handed to the pool: an opaque nullary computation.  We model it by
an identity `tid` (so execution order is observable) and its behaviour when
run. -/
structure PoolTask where
  tid : Nat
  result : TaskResult
  deriving DecidableEq

/-- True when running the task throws an object that does NOT derive from
`std::exception`: such a throw is not caught by the handler at
ThreadPool.h:211, escapes `ThreadPoolWorker::operator()`, and (because the
worker is a `std::thread` body) terminates the whole program. -/
def TaskResult.fatal : TaskResult → Bool
  | .raise false _ => true
  | _ => false

/-- The text built at ThreadPool.h:213-216 and passed to
`ThreadPool::logMessage` when a worker catches a `std::exception` from a
task body. -/
def workerErrMsg (id : Nat) (what : String) : String :=
  "ERROR in ThreadPoolWorker[" ++ toString id ++ "] "
    ++ "task. Original message is as follows:\n\t"
    ++ what ++ "\n"
    ++ "Ignoring exception and continuing.\n"

/-- The text passed to `ThreadPool::logMessage` at ThreadPool.h:104-105 and
111-112 when `addTask` is called while `allowNewTasks_` is false. -/
def addTaskErrMsg : String :=
  "ERROR in ThreadPool::addTask(F): "
    ++ "Attempting to add task to a stopped thread pool."

/-- ThreadPool.h:175-179, `ThreadPool::logMessage`: append `msg` to the log
stream when one was supplied (`log_ != nullptr`), otherwise drop it.  The
stream contents are modelled as the list of written messages. -/
def logWrite (hasLog : Bool) (log : List String) (msg : String) : List String :=
  if hasLog then log ++ [msg] else log

/-- State of a single worker running `ThreadPoolWorker::operator()`
(worker id 0) sequentially over the queue: its own `working_` flag, the
record of task ids whose bodies were started (in start order), the log
stream contents, and whether an uncaught throw has terminated the program. -/
structure W1State where
  working : Bool
  execLog : List Nat
  log : List String
  aborted : Bool
  deriving DecidableEq

/-- ThreadPool.h:208-217, the body of one `Running` phase of the worker:
`working_[id_] = true;` then `currentTask()` inside
`try ... catch (const std::exception& e)`.  A caught fault is logged via the
pool and the worker continues; a throw not derived from `std::exception`
escapes the thread body and terminates the program (`aborted`). -/
def runTask (hasLog : Bool) (id : Nat) (st : W1State) (t : PoolTask) : W1State :=
  let st := { st with working := true, execLog := st.execLog ++ [t.tid] }
  match t.result with
  | .ok => st
  | .raise true what =>
      { st with log := logWrite hasLog st.log (workerErrMsg id what) }
  | .raise false _ => { st with aborted := true }

/-- ThreadPool.h:188-219 specialised to a single worker (id 0): the worker
loop dequeues the head of the queue (ThreadPool.h:204-205), runs it with
`runTask`, and repeats; when it finds the queue empty it clears its
`working_` flag (ThreadPool.h:195-196) and blocks in `cv_.wait`.  The
returned state is the state at that final block (or at program termination
if a task threw a non-`std::exception` object). -/
def workerLoop1 (hasLog : Bool) : List PoolTask → W1State → W1State
  | [], st => { st with working := false }
  | t :: rest, st =>
      let st1 := runTask hasLog 0 st t
      if st1.aborted then st1 else workerLoop1 hasLog rest st1

/-- The pool state of `helper::ThreadPool` (ThreadPool.h:34-62):
the log stream (`log_`, with `hasLog` recording `log_ != nullptr`), the
per-worker `working_` flags, per-worker liveness of the `workers_` threads
(true until the thread returns from `operator()` and is joined), the task
queue `tasks_` (head = front), and the flags `allowNewTasks_` and
`terminate_`.  `execLog` records the ids of task bodies that were started,
in start order. -/
structure ThreadPool where
  hasLog : Bool
  log : List String
  working : List Bool
  alive : List Bool
  tasks : List PoolTask
  allowNewTasks : Bool
  terminate : Bool
  execLog : List Nat
  deriving DecidableEq

/-- The pool state at the end of a completed run of the constructor body
(ThreadPool.h:85-93): the loop has pushed `false` onto `working_` and
spawned a thread running `ThreadPoolWorker(*this, i)` once per worker, and
`allowNewTasks_` / `terminate_` keep their member initialisers
`true` / `false` (ThreadPool.h:58-59).  Whether the constructor loop
terminates at all is a separate question — see `ThreadPool.construct`. -/
def ThreadPool.new (nThreads : Nat) (hasLog : Bool) : ThreadPool :=
  { hasLog := hasLog
    log := []
    working := List.replicate nThreads false
    alive := List.replicate nThreads true
    tasks := []
    allowNewTasks := true
    terminate := false
    execLog := [] }

/-- Largest value of the constructor loop counter `unsigned int i`
(ThreadPool.h:89): `unsigned int` is 32 bits wide on the reference
platforms (LP64/LLP64), while the `nThreads` argument is a `size_t`. -/
def UINT_MAX : Nat := 2 ^ 32 - 1

/-- Arithmetic of the constructor loop counter `unsigned int i` at
ThreadPool.h:89: increments wrap around modulo `2 ^ 32`. -/
def uintWrap (i : Nat) : Nat := i % 2 ^ 32

/-- ThreadPool.h:85-93, the constructor `ThreadPool(nThreads, logStream)`.
The loop `for (unsigned int i = 0; i < nThreads; i++)` compares the 32-bit
counter `i` against the `size_t` value `nThreads`.  While
`nThreads ≤ UINT_MAX` the guard fails after exactly `nThreads` iterations
and construction completes in the state `ThreadPool.new nThreads hasLog`.
For `nThreads > UINT_MAX` the counter wraps (`uintWrap i ≤ UINT_MAX <
nThreads`, see `uintWrap_le_UINT_MAX`) before ever reaching `nThreads`, so
the guard holds at every iteration, the loop never exits, and construction
never completes (`none`). -/
def ThreadPool.construct (nThreads : Nat) (hasLog : Bool) : Option ThreadPool :=
  if nThreads ≤ UINT_MAX then some (ThreadPool.new nThreads hasLog) else none

/-- `ThreadPool::logMessage` (ThreadPool.h:175-179) acting on the pool
state. -/
def ThreadPool.logMessage (s : ThreadPool) (msg : String) : ThreadPool :=
  { s with log := logWrite s.hasLog s.log msg }

/-- ThreadPool.h:101-118, `ThreadPool::addTask`: if `allowNewTasks_` is
false, log an error and return without touching the queue; the check is
made once without the lock and once more under it (both are modelled, the
second is unreachable sequentially).  Otherwise push the task onto the back
of `tasks_` and notify one worker. -/
def ThreadPool.addTask (s : ThreadPool) (t : PoolTask) : ThreadPool :=
  if !s.allowNewTasks then s.logMessage addTaskErrMsg
  else if !s.allowNewTasks then s.logMessage addTaskErrMsg
  else { s with tasks := s.tasks ++ [t] }

/-- Outcome of a call to `ThreadPool::waitUntilComplete`:
`usageFault s` models the `std::logic_error` thrown at ThreadPool.h:130
propagating to the caller with the pool state `s` untouched; `hangs` models
a poll loop that can never observe its exit condition (so the call never
returns); `dies` models program termination caused by a task throwing an
object not derived from `std::exception`; `ok s` is a normal return with
post-state `s`. -/
inductive DrainOutcome
  | usageFault (s : ThreadPool)
  | hangs
  | dies
  | ok (s : ThreadPool)
  deriving DecidableEq

/-- ThreadPool.h:155-170, the final phase of `waitUntilComplete`.  If
`terminatePool`: set `terminate_ = true`, `cv_.notify_all()`, and join every
worker — at this point the queue is empty, so each woken worker takes the
exit at ThreadPool.h:200-202; after the joins no worker thread remains.
Otherwise poll until every `working_` flag is false (ThreadPool.h:165-167)
— the queue being empty, each live worker clears its flag at
ThreadPool.h:195-196 when it next reaches the top of its loop, so the poll
exits with all flags false, but a flag left true with no live worker to
clear it makes the poll spin forever — and then set
`allowNewTasks_ = true` (ThreadPool.h:169). -/
def ThreadPool.finishPhase (s : ThreadPool) (terminatePool : Bool) : DrainOutcome :=
  if terminatePool then
    .ok { s with terminate := true, alive := s.alive.map (fun _ => false) }
  else
    if s.working.any (fun b => b) && !(s.alive.any (fun b => b)) then .hangs
    else .ok { s with working := s.working.map (fun _ => false), allowNewTasks := true }

/-- ThreadPool.h:126-171, `ThreadPool::waitUntilComplete`.  The guard at
ThreadPool.h:129-132 throws before any state is mutated.  Then
`allowNewTasks_ = allowNewTasks` (ThreadPool.h:134).  If `abandonTasks`,
the queue is popped empty under the lock without running anything
(ThreadPool.h:136-140).  Otherwise the caller polls until the queue is
observed empty and then forces `allowNewTasks_ = false`
(ThreadPool.h:141-153); the poll is modelled by its exit state under the
canonical schedule in which the live workers drain the whole queue
(`workerLoop1`) between polls — with a non-empty queue and no live worker
the poll never exits, and an uncaught task throw kills the program.
Finally `finishPhase` runs the terminate-or-wait-idle tail. -/
def ThreadPool.waitUntilComplete (s : ThreadPool)
    (allowNewTasks abandonTasks terminatePool : Bool) : DrainOutcome :=
  if allowNewTasks && (abandonTasks || terminatePool) then .usageFault s
  else
    let s1 := { s with allowNewTasks := allowNewTasks }
    if abandonTasks then
      ThreadPool.finishPhase { s1 with tasks := [] } terminatePool
    else
      if s1.tasks.isEmpty then
        ThreadPool.finishPhase { s1 with allowNewTasks := false } terminatePool
      else if s1.alive.any (fun b => b) then
        let w := workerLoop1 s1.hasLog s1.tasks
          { working := false, execLog := s1.execLog, log := s1.log, aborted := false }
        if w.aborted then .dies
        else
          ThreadPool.finishPhase
            { s1 with tasks := [], execLog := w.execLog, log := w.log,
                      working := s1.working.map (fun _ => false),
                      allowNewTasks := false } terminatePool
      else .hangs

/-- ThreadPool.h:96-98, the destructor `~ThreadPool`: it performs exactly
`waitUntilComplete(false, true, true)`. -/
def ThreadPool.destroy (s : ThreadPool) : DrainOutcome :=
  s.waitUntilComplete false true true

/-- Modelled from the spec: `ThreadPool::respawn` is declared at
ThreadPool.h:49 but no definition exists anywhere under src/.  Spec §6 and
the glossary describe it: re-create the worker threads after a prior
terminate and restore the pool to a usable state in which submissions are
accepted again. -/
def ThreadPool.respawn (s : ThreadPool) : ThreadPool :=
  { s with alive := s.alive.map (fun _ => true)
           working := s.working.map (fun _ => false)
           terminate := false
           allowNewTasks := true }

/-- Modelled from the spec: `ThreadPool::reset` is declared at
ThreadPool.h:48 but no definition exists anywhere under src/.  Spec §6
describes `reset` / `respawn` jointly: re-arm a terminated or emptied pool,
restoring it to a usable state in which submissions are accepted again. -/
def ThreadPool.reset (s : ThreadPool) : ThreadPool :=
  s.respawn

/-- Control point of one worker thread inside
`ThreadPoolWorker::operator()` (ThreadPool.h:188-219), at the granularity
of the sections it executes while holding the pool mutex `mt_`.

* `loopTop`: at the top of `while (1)`, about to acquire `mt_`
  (ThreadPool.h:193);
* `waiting`: blocked inside `cv_.wait(lock)` (ThreadPool.h:197), the lock
  released, the worker in the wait set of `cv_`;
* `woken`: notified out of `cv_.wait`, now contending to reacquire `mt_`
  before `cv_.wait` returns;
* `running t`: the lock released at ThreadPool.h:206 with `currentTask = t`,
  about to execute ThreadPool.h:208-217;
* `done`: returned at ThreadPool.h:202, the thread finished. -/
inductive WPhase
  | loopTop
  | waiting
  | woken
  | running (t : PoolTask)
  | done
  deriving DecidableEq

/-- State of the whole concurrent system: the shared pool fields of
`ThreadPool`, plus each worker thread's control point.  `badFront` is set
to `some i` when worker `i` evaluates `tasks_.front()` on an empty queue
(ThreadPool.h:204) — undefined behaviour in the source; the machine freezes
there.  `aborted` records program termination by an uncaught task throw. -/
structure SysState where
  tasks : List PoolTask
  working : List Bool
  phases : List WPhase
  allowNewTasks : Bool
  terminate : Bool
  hasLog : Bool
  log : List String
  execLog : List Nat
  badFront : Option Nat
  aborted : Bool
  deriving DecidableEq

/-- The system state right after `ThreadPool(nThreads, logStream)`
(ThreadPool.h:85-93): every `working_` flag false, every worker thread at
the top of its loop. -/
def SysState.init (nThreads : Nat) (hasLog : Bool) : SysState :=
  { tasks := []
    working := List.replicate nThreads false
    phases := List.replicate nThreads WPhase.loopTop
    allowNewTasks := true
    terminate := false
    hasLog := hasLog
    log := []
    execLog := []
    badFront := none
    aborted := false }

/-- A scheduler decision: which thread runs its next atomic section.

* `acquire i`: worker `i` (at `loopTop`, or `woken` inside `cv_.wait`) wins
  the mutex and runs its locked section up to the next lock release;
* `finishTask i`: worker `i` at `running t` executes ThreadPool.h:208-217
  (set `working_[i]`, run the body, catch-and-log) and returns to `loopTop`;
* `submit t j`: a producer thread runs `ThreadPool::addTask(t)`
  (ThreadPool.h:101-118); the final `cv_.notify_one()` wakes worker `j`
  when `j` is in the wait set (otherwise the first waiting worker, if any —
  a notification with an empty wait set is lost). -/
inductive SchedEv
  | acquire (i : Nat)
  | finishTask (i : Nat)
  | submit (t : PoolTask) (j : Nat)

/-- Move worker `j` from `waiting` to `woken` if it is in the wait set,
otherwise wake the first waiting worker, if any: `cv_.notify_one()`. -/
def notifyOne (phases : List WPhase) (j : Nat) : List WPhase :=
  if phases.get? j = some WPhase.waiting then
    phases.set j WPhase.woken
  else
    match phases.indexOf? WPhase.waiting with
    | some k => phases.set k WPhase.woken
    | none => phases

/-- One atomic section of the system, chosen by the scheduler event `ev`.
Each branch is read off ThreadPool.h:

* worker at `loopTop` acquiring the lock: if `tasks_.empty()`, clear
  `working_[i]` and enter `cv_.wait` (ThreadPool.h:195-197); otherwise fall
  through the (false) terminate test — the queue is non-empty — and dequeue
  the front (ThreadPool.h:200-205), releasing the lock with the task;
* worker at `woken` reacquiring the lock inside `cv_.wait`: if
  `terminate_ && tasks_.empty()` it returns (ThreadPool.h:200-202);
  otherwise it runs `tasks_.front()` (ThreadPool.h:204) — on an empty queue
  this is undefined behaviour, recorded in `badFront` — else dequeues;
* `finishTask`: ThreadPool.h:208-217 as in `runTask`;
* `submit`: ThreadPool.h:101-118 — reject-and-log when `allowNewTasks_` is
  false, else push at the back and `notify_one`. -/
def sysStep (s : SysState) (ev : SchedEv) : SysState :=
  if s.badFront.isSome || s.aborted then s
  else
    match ev with
    | .acquire i =>
        match s.phases.get? i with
        | some WPhase.loopTop =>
            match s.tasks with
            | [] =>
                { s with working := s.working.set i false
                         phases := s.phases.set i WPhase.waiting }
            | t :: rest =>
                { s with tasks := rest
                         phases := s.phases.set i (WPhase.running t) }
        | some WPhase.woken =>
            if s.terminate && s.tasks.isEmpty then
              { s with phases := s.phases.set i WPhase.done }
            else
              match s.tasks with
              | [] => { s with badFront := some i }
              | t :: rest =>
                  { s with tasks := rest
                           phases := s.phases.set i (WPhase.running t) }
        | _ => s
    | .finishTask i =>
        match s.phases.get? i with
        | some (WPhase.running t) =>
            let s1 := { s with working := s.working.set i true
                               execLog := s.execLog ++ [t.tid]
                               phases := s.phases.set i WPhase.loopTop }
            match t.result with
            | .ok => s1
            | .raise true what =>
                { s1 with log := logWrite s1.hasLog s1.log (workerErrMsg i what) }
            | .raise false _ => { s1 with aborted := true }
        | _ => s
    | .submit t j =>
        if !s.allowNewTasks then
          { s with log := logWrite s.hasLog s.log addTaskErrMsg }
        else
          { s with tasks := s.tasks ++ [t]
                   phases := notifyOne s.phases j }

/-- Run the system from `s` under the scheduler choices `evs`, in order. -/
def sysRun (s : SysState) (evs : List SchedEv) : SysState :=
  evs.foldl sysStep s

/-! Helper lemmas about the single-worker run. -/

theorem runTask_aborted (hl : Bool) (id : Nat) (st : W1State) (t : PoolTask) :
    (runTask hl id st t).aborted = (st.aborted || t.result.fatal) := by
  unfold runTask TaskResult.fatal
  rcases t.result with _ | ⟨std, what⟩ <;> [skip; cases std] <;> simp

theorem runTask_execLog (hl : Bool) (id : Nat) (st : W1State) (t : PoolTask) :
    (runTask hl id st t).execLog = st.execLog ++ [t.tid] := by
  unfold runTask
  rcases t.result with _ | ⟨std, what⟩ <;> [skip; cases std] <;> simp

theorem runTask_working (hl : Bool) (id : Nat) (st : W1State) (t : PoolTask) :
    (runTask hl id st t).working = true := by
  unfold runTask
  rcases t.result with _ | ⟨std, what⟩ <;> [skip; cases std] <;> simp

theorem runTask_log_mono (hl : Bool) (id : Nat) (st : W1State) (t : PoolTask)
    (m : String) (hm : m ∈ st.log) : m ∈ (runTask hl id st t).log := by
  unfold runTask logWrite
  rcases t.result with _ | ⟨std, what⟩ <;> [skip; cases std] <;> simp <;>
    first
      | exact hm
      | (split <;> simp_all)

theorem workerLoop1_not_aborted (hl : Bool) (ts : List PoolTask) (st : W1State)
    (hfatal : ∀ t ∈ ts, t.result.fatal = false) (hab : st.aborted = false) :
    (workerLoop1 hl ts st).aborted = false := by
  induction ts generalizing st with
  | nil => simpa [workerLoop1] using hab
  | cons t rest ih =>
      have h1 : (runTask hl 0 st t).aborted = false := by
        simp [runTask_aborted, hab, hfatal t (List.mem_cons_self t rest)]
      rw [workerLoop1, if_neg (by simp [h1])]
      exact ih _ (fun u hu => hfatal u (List.mem_cons_of_mem t hu)) h1

theorem workerLoop1_execLog (hl : Bool) (ts : List PoolTask) (st : W1State)
    (hfatal : ∀ t ∈ ts, t.result.fatal = false) (hab : st.aborted = false) :
    (workerLoop1 hl ts st).execLog = st.execLog ++ ts.map PoolTask.tid := by
  induction ts generalizing st with
  | nil => simp [workerLoop1]
  | cons t rest ih =>
      have h1 : (runTask hl 0 st t).aborted = false := by
        simp [runTask_aborted, hab, hfatal t (List.mem_cons_self t rest)]
      rw [workerLoop1, if_neg (by simp [h1])]
      rw [ih _ (fun u hu => hfatal u (List.mem_cons_of_mem t hu)) h1, runTask_execLog]
      simp

theorem workerLoop1_log_mono (hl : Bool) (ts : List PoolTask) (st : W1State)
    (m : String) (hm : m ∈ st.log) : m ∈ (workerLoop1 hl ts st).log := by
  induction ts generalizing st with
  | nil => simpa [workerLoop1] using hm
  | cons t rest ih =>
      have h1 := runTask_log_mono hl 0 st t m hm
      by_cases h2 : (runTask hl 0 st t).aborted = true
      · rw [workerLoop1, if_pos (by simp [h2])]
        exact h1
      · rw [workerLoop1, if_neg (by simp at h2; simp [h2])]
        exact ih _ h1

theorem workerLoop1_working (hl : Bool) (ts : List PoolTask) (st : W1State)
    (hab : (workerLoop1 hl ts st).aborted = false) :
    (workerLoop1 hl ts st).working = false := by
  induction ts generalizing st with
  | nil => simp [workerLoop1]
  | cons t rest ih =>
      by_cases h2 : (runTask hl 0 st t).aborted = true
      · rw [workerLoop1, if_pos (by simp [h2])] at hab
        simp [h2] at hab
      · rw [workerLoop1, if_neg (by simp at h2; simp [h2])] at hab ⊢
        exact ih _ hab

theorem workerLoop1_logs_faults (ts : List PoolTask) (st : W1State)
    (hfatal : ∀ t ∈ ts, t.result.fatal = false) (hab : st.aborted = false) :
    ∀ t ∈ ts, ∀ what, t.result = TaskResult.raise true what →
      workerErrMsg 0 what ∈ (workerLoop1 true ts st).log := by
  induction ts generalizing st with
  | nil => intro t ht; simp at ht
  | cons u rest ih =>
      intro t ht what hres
      have h1 : (runTask true 0 st u).aborted = false := by
        simp [runTask_aborted, hab, hfatal u (List.mem_cons_self u rest)]
      rw [workerLoop1, if_neg (by simp [h1])]
      rcases List.mem_cons.mp ht with rfl | hrest
      · have hmem : workerErrMsg 0 what ∈ (runTask true 0 st t).log := by
          unfold runTask
          rw [hres]
          simp [logWrite]
        exact workerLoop1_log_mono true rest _ _ hmem
      · exact ih _ (fun v hv => hfatal v (List.mem_cons_of_mem u hv)) h1 t hrest what hres

/-! Helper lemmas about the pool submission path. -/

theorem addTask_accepting (s : ThreadPool) (t : PoolTask)
    (h : s.allowNewTasks = true) :
    s.addTask t = { s with tasks := s.tasks ++ [t] } := by
  simp [ThreadPool.addTask, h]

theorem addTask_rejecting (s : ThreadPool) (t : PoolTask)
    (h : s.allowNewTasks = false) :
    s.addTask t = s.logMessage addTaskErrMsg := by
  simp [ThreadPool.addTask, h]

theorem foldl_addTask (subs : List PoolTask) (s : ThreadPool)
    (h : s.allowNewTasks = true) :
    (subs.foldl ThreadPool.addTask s).tasks = s.tasks ++ subs ∧
    (subs.foldl ThreadPool.addTask s).allowNewTasks = true := by
  induction subs generalizing s with
  | nil => simpa using h
  | cons t rest ih =>
      rw [List.foldl_cons, addTask_accepting s t h]
      have := ih { s with tasks := s.tasks ++ [t] } h
      simpa using this

/-! Claim theorems. -/

/-- C1: a call `waitUntilComplete(allowNewTasks, abandonTasks, terminatePool)`
with `allowNewTasks = true` and `abandonTasks = true` or
`terminatePool = true` fails immediately with the usage fault
(`std::logic_error`, ThreadPool.h:129-132) and mutates no state: the outcome
carries the pool state exactly as it was, so `allowNewTasks_`, `terminate_`,
the queue, the log and the flags are all unchanged and no partial effect
occurs. -/
theorem C1_invalid_combo_faults_without_mutation (s : ThreadPool)
    (a b t : Bool) (ha : a = true) (hbt : b = true ∨ t = true) :
    s.waitUntilComplete a b t = DrainOutcome.usageFault s := by
  subst ha
  rw [ThreadPool.waitUntilComplete, if_pos]
  rcases hbt with rfl | rfl <;> simp

/-- Witness for C1 at the two concrete calls named by the spec:
`drain(true, true, false)` and `drain(true, false, true)` on a fresh
two-worker pool. -/
theorem C1_witness :
    (ThreadPool.new 2 true).waitUntilComplete true true false
        = DrainOutcome.usageFault (ThreadPool.new 2 true) ∧
    (ThreadPool.new 2 true).waitUntilComplete true false true
        = DrainOutcome.usageFault (ThreadPool.new 2 true) :=
  ⟨C1_invalid_combo_faults_without_mutation (ThreadPool.new 2 true) true true false
      rfl (Or.inl rfl),
    C1_invalid_combo_faults_without_mutation (ThreadPool.new 2 true) true false true
      rfl (Or.inr rfl)⟩

/-- C2: the task queue is FIFO.  Submitting any sequence of tasks into an
accepting pool with an empty queue appends them in submission order
(`tasks_.push` at ThreadPool.h:115), and a single worker running
`ThreadPoolWorker::operator()` over that queue (dequeueing `tasks_.front()`
at ThreadPool.h:204-205) starts the task bodies in exactly the submission
order — in particular five tasks run as T1, T2, T3, T4, T5.  (The tasks are
assumed not to throw objects outside the `std::exception` hierarchy, which
would terminate the program — see C3.) -/
theorem C2_fifo_order (s : ThreadPool) (subs : List PoolTask) (st : W1State)
    (hacc : s.allowNewTasks = true) (hempty : s.tasks = [])
    (hfatal : ∀ t ∈ subs, t.result.fatal = false) (hab : st.aborted = false) :
    (subs.foldl ThreadPool.addTask s).tasks = subs ∧
    (workerLoop1 s.hasLog ((subs.foldl ThreadPool.addTask s).tasks) st).execLog
      = st.execLog ++ subs.map PoolTask.tid := by
  have hq := (foldl_addTask subs s hacc).1
  rw [hempty] at hq
  simp only [List.nil_append] at hq
  refine ⟨hq, ?_⟩
  rw [hq]
  exact workerLoop1_execLog s.hasLog subs st hfatal hab

/-- Witness for C2: five tasks T1..T5 on a fresh one-worker pool are
enqueued as [T1, ..., T5] and executed in exactly that order. -/
theorem C2_witness :
    (([⟨1, .ok⟩, ⟨2, .ok⟩, ⟨3, .ok⟩, ⟨4, .ok⟩, ⟨5, .ok⟩] : List PoolTask).foldl
        ThreadPool.addTask (ThreadPool.new 1 true)).tasks
      = [⟨1, .ok⟩, ⟨2, .ok⟩, ⟨3, .ok⟩, ⟨4, .ok⟩, ⟨5, .ok⟩] ∧
    (workerLoop1 (ThreadPool.new 1 true).hasLog
        (([⟨1, .ok⟩, ⟨2, .ok⟩, ⟨3, .ok⟩, ⟨4, .ok⟩, ⟨5, .ok⟩] : List PoolTask).foldl
          ThreadPool.addTask (ThreadPool.new 1 true)).tasks
        ⟨false, [], [], false⟩).execLog
      = [] ++ [1, 2, 3, 4, 5] :=
  C2_fifo_order (ThreadPool.new 1 true)
    [⟨1, .ok⟩, ⟨2, .ok⟩, ⟨3, .ok⟩, ⟨4, .ok⟩, ⟨5, .ok⟩]
    ⟨false, [], [], false⟩ rfl rfl (by decide) rfl

/-- Counterexample to C3 as stated.  The claim says every fault raised by a
task body is caught at the worker boundary and the worker survives and runs
the next task.  But the handler at ThreadPool.h:211 catches only
`const std::exception&`: a task throwing anything else (here recorded as
`raise false`) escapes `ThreadPoolWorker::operator()` and terminates the
program, and the subsequently queued task (id 2) never starts. -/
theorem C3_counterexample :
    (workerLoop1 true [⟨1, TaskResult.raise false "boom"⟩, ⟨2, TaskResult.ok⟩]
        ⟨false, [], [], false⟩).aborted = true ∧
    (workerLoop1 true [⟨1, TaskResult.raise false "boom"⟩, ⟨2, TaskResult.ok⟩]
        ⟨false, [], [], false⟩).execLog = [1] :=
  ⟨rfl, rfl⟩

/-- C3 (amended): for every task whose body raises a fault derived from
`std::exception`, the fault is caught at the worker boundary
(ThreadPool.h:211), logged via the pool's log sink with the worker id and
the fault's message (ThreadPool.h:213-216), and never rethrown; the worker
survives, returns to its loop, and still starts every subsequently dequeued
task.  Faults whose thrown object does not derive from `std::exception` are
not caught and terminate the program. -/
theorem C3_std_faults_contained (ts : List PoolTask) (st : W1State)
    (hfatal : ∀ t ∈ ts, t.result.fatal = false) (hab : st.aborted = false) :
    (workerLoop1 true ts st).aborted = false ∧
    (workerLoop1 true ts st).execLog = st.execLog ++ ts.map PoolTask.tid ∧
    (∀ t ∈ ts, ∀ what, t.result = TaskResult.raise true what →
      workerErrMsg 0 what ∈ (workerLoop1 true ts st).log) :=
  ⟨workerLoop1_not_aborted true ts st hfatal hab,
    workerLoop1_execLog true ts st hfatal hab,
    workerLoop1_logs_faults ts st hfatal hab⟩

/-- Witness for the amended C3: a task raising a `std::exception` fault
followed by a normal task on a one-worker pool — the worker survives, both
task bodies start in order, and the fault is logged with the worker id and
message. -/
theorem C3_witness :
    (workerLoop1 true [⟨1, TaskResult.raise true "oops"⟩, ⟨2, TaskResult.ok⟩]
        ⟨false, [], [], false⟩).aborted = false ∧
    (workerLoop1 true [⟨1, TaskResult.raise true "oops"⟩, ⟨2, TaskResult.ok⟩]
        ⟨false, [], [], false⟩).execLog = [] ++ [1, 2] ∧
    (∀ t ∈ ([⟨1, TaskResult.raise true "oops"⟩, ⟨2, TaskResult.ok⟩] : List PoolTask),
      ∀ what, t.result = TaskResult.raise true what →
        workerErrMsg 0 what ∈ (workerLoop1 true
          [⟨1, TaskResult.raise true "oops"⟩, ⟨2, TaskResult.ok⟩]
          ⟨false, [], [], false⟩).log) :=
  C3_std_faults_contained
    [⟨1, TaskResult.raise true "oops"⟩, ⟨2, TaskResult.ok⟩]
    ⟨false, [], [], false⟩ (by decide) rfl

/-- C4: whenever `waitUntilComplete(false, _, terminatePool = true)` returns,
`terminate_` has been set (ThreadPool.h:157), every worker thread has taken
the exit at ThreadPool.h:200-202 and been joined (ThreadPool.h:159-162) so
no live worker remains, and the pool is permanently closed: `allowNewTasks_`
is false, so any subsequent `addTask` is rejected and logged
(ThreadPool.h:103-107) and never enqueues a task. -/
theorem C4_terminate_closes_pool (s s2 : ThreadPool) (b : Bool) (t : PoolTask)
    (hl : s.hasLog = true)
    (h : s.waitUntilComplete false b true = DrainOutcome.ok s2) :
    s2.terminate = true ∧ (∀ x ∈ s2.alive, x = false) ∧
    s2.allowNewTasks = false ∧
    (s2.addTask t).tasks = s2.tasks ∧
    (s2.addTask t).log = s2.log ++ [addTaskErrMsg] := by
  have key : s2.terminate = true ∧ s2.allowNewTasks = false ∧
      (∀ x ∈ s2.alive, x = false) ∧ s2.hasLog = true := by
    simp only [ThreadPool.waitUntilComplete, ThreadPool.finishPhase] at h
    split at h
    · simp at h
    · split at h
      · injection h with h
        subst h
        simp [hl, List.mem_map]
      · split at h
        · injection h with h
          subst h
          simp [hl, List.mem_map]
        · split at h
          · split at h
            · simp at h
            · injection h with h
              subst h
              simp [hl, List.mem_map]
          · simp at h
  obtain ⟨k1, k2, k3, k4⟩ := key
  refine ⟨k1, k3, k2, ?_, ?_⟩ <;>
    rw [addTask_rejecting s2 t k2] <;>
      simp [ThreadPool.logMessage, logWrite, k4]

/-- The pool state produced by `waitUntilComplete(false, true, true)` on a
fresh one-worker pool with a log sink: used as the concrete post-state in
the C4 witness. -/
def poolTermPost : ThreadPool :=
  { hasLog := true, log := [], working := [false], alive := [false],
    tasks := [], allowNewTasks := false, terminate := true, execLog := [] }

/-- Witness for C4: a fresh one-worker pool with a log sink, shut down by
`waitUntilComplete(false, true, true)`, then offered one more task. -/
theorem C4_witness :
    poolTermPost.terminate = true ∧
    (∀ x ∈ poolTermPost.alive, x = false) ∧
    poolTermPost.allowNewTasks = false ∧
    (poolTermPost.addTask ⟨7, .ok⟩).tasks = poolTermPost.tasks ∧
    (poolTermPost.addTask ⟨7, .ok⟩).log = poolTermPost.log ++ [addTaskErrMsg] :=
  C4_terminate_closes_pool (ThreadPool.new 1 true) poolTermPost true ⟨7, .ok⟩ rfl rfl

/-- C5 is refuted by the code: the wait at ThreadPool.h:195-198 is an `if`,
not a loop, so a worker woken from `cv_.wait` re-checks nothing before
running `tasks_.front()` (ThreadPool.h:204).  With two workers, this
schedule is reachable: both workers block on the empty queue; a producer
submits tasks 1 and 2, waking both; worker 0 dequeues task 1, finishes it,
loops round and — being at the top of its loop, not in the wait — also
dequeues task 2; worker 1 then reacquires the lock with `terminate_` false
and the queue empty, and executes `tasks_.front()` on an empty queue
(undefined behaviour), recorded in `badFront`. -/
theorem C5_empty_dequeue_reachable :
    (sysRun (SysState.init 2 true)
      [.acquire 0, .acquire 1, .submit ⟨1, .ok⟩ 0, .submit ⟨2, .ok⟩ 1,
       .acquire 0, .finishTask 0, .acquire 0, .acquire 1]).badFront = some 1 ∧
    (sysRun (SysState.init 2 true)
      [.acquire 0, .acquire 1, .submit ⟨1, .ok⟩ 0, .submit ⟨2, .ok⟩ 1,
       .acquire 0, .finishTask 0, .acquire 0, .acquire 1]).tasks = [] ∧
    (sysRun (SysState.init 2 true)
      [.acquire 0, .acquire 1, .submit ⟨1, .ok⟩ 0, .submit ⟨2, .ok⟩ 1,
       .acquire 0, .finishTask 0, .acquire 0, .acquire 1]).terminate = false :=
  ⟨rfl, rfl, rfl⟩

/-- C6: the destructor (ThreadPool.h:96-98) is literally
`waitUntilComplete(false, true, true)`: intake is closed
(`allowNewTasks_ = false`), every pending task is discarded unexecuted
(queue emptied, `execLog` and `log` untouched), and every worker is
terminated and joined before destruction completes, whatever the earlier
caller-requested mode was. -/
theorem C6_destructor_full_shutdown (s : ThreadPool) :
    s.destroy = s.waitUntilComplete false true true ∧
    s.destroy = DrainOutcome.ok
      { s with allowNewTasks := false, tasks := [],
               terminate := true, alive := s.alive.map (fun _ => false) } :=
  ⟨rfl, rfl⟩

/-- C7: whenever `waitUntilComplete(_, _, terminatePool = false)` passes the
precondition and returns, the poll at ThreadPool.h:165-167 has observed
every worker's busy flag false (all previously dequeued work finished), and
ThreadPool.h:169 has reset `allowNewTasks_ = true`, so a subsequent
`addTask` enqueues — even when the caller passed `allowNewTasks = false`. -/
theorem C7_drain_reopens_intake (s s2 : ThreadPool) (a b : Bool) (t : PoolTask)
    (h : s.waitUntilComplete a b false = DrainOutcome.ok s2) :
    (∀ x ∈ s2.working, x = false) ∧ s2.allowNewTasks = true ∧
    (s2.addTask t).tasks = s2.tasks ++ [t] := by
  have key : (∀ x ∈ s2.working, x = false) ∧ s2.allowNewTasks = true := by
    simp only [ThreadPool.waitUntilComplete, ThreadPool.finishPhase, Bool.or_false,
      Bool.false_eq_true, if_false, reduceIte] at h
    repeat' split at h
    all_goals
      first
        | exact (DrainOutcome.noConfusion h)
        | (injection h with h; subst h; refine ⟨?_, rfl⟩; intro x hx;
           rcases List.mem_map.mp hx with ⟨y, hy, rfl⟩; rfl)
  exact ⟨key.1, key.2, by rw [addTask_accepting s2 t key.2]⟩

/-- The pool state produced by `waitUntilComplete(false, false, false)` on a
fresh one-worker pool with a log sink: used as the concrete post-state in
the C7 witness. -/
def poolDrainPost : ThreadPool :=
  { hasLog := true, log := [], working := [false], alive := [true],
    tasks := [], allowNewTasks := true, terminate := false, execLog := [] }

/-- Witness for C7: `waitUntilComplete(false, false, false)` on a fresh
one-worker pool — the caller passes `allowNewTasks = false`, yet the pool
comes back accepting and a subsequent submission enqueues. -/
theorem C7_witness :
    (∀ x ∈ poolDrainPost.working, x = false) ∧
    poolDrainPost.allowNewTasks = true ∧
    (poolDrainPost.addTask ⟨9, .ok⟩).tasks = poolDrainPost.tasks ++ [⟨9, .ok⟩] :=
  C7_drain_reopens_intake (ThreadPool.new 1 true) poolDrainPost false false ⟨9, .ok⟩ rfl

/-- Counterexample to C8 as stated.  On a one-worker pool, after the worker
finishes the body of task 1 with task 2 still queued, it is back at the top
of its loop — executing no task body — yet its `working_` flag is still
true: the flag is only cleared at ThreadPool.h:195-196 when the worker
observes an empty queue, and nothing clears it after the `try` block at
ThreadPool.h:208-217.  So the flag is not false in the interval between
finishing one task and starting the next. -/
theorem C8_counterexample :
    (sysRun (SysState.init 1 true)
      [.acquire 0, .submit ⟨1, .ok⟩ 0, .submit ⟨2, .ok⟩ 0,
       .acquire 0, .finishTask 0]).phases = [WPhase.loopTop] ∧
    (sysRun (SysState.init 1 true)
      [.acquire 0, .submit ⟨1, .ok⟩ 0, .submit ⟨2, .ok⟩ 0,
       .acquire 0, .finishTask 0]).working = [true] ∧
    (sysRun (SysState.init 1 true)
      [.acquire 0, .submit ⟨1, .ok⟩ 0, .submit ⟨2, .ok⟩ 0,
       .acquire 0, .finishTask 0]).tasks = [⟨2, .ok⟩] ∧
    (sysRun (SysState.init 1 true)
      [.acquire 0, .submit ⟨1, .ok⟩ 0, .submit ⟨2, .ok⟩ 0,
       .acquire 0, .finishTask 0]).execLog = [1] :=
  ⟨rfl, rfl, rfl, rfl⟩

/-- C8 (amended): the worker's busy flag is set true immediately before each
task body (ThreadPool.h:209) and remains true until the worker next observes
an empty queue at the top of its loop, where it is cleared just before
blocking (ThreadPool.h:195-196); in particular it stays true between
consecutive tasks while the queue is non-empty, and it is false while the
worker is blocked waiting for work. -/
theorem C8_flag_cleared_only_on_empty_queue (hl : Bool) (t : PoolTask)
    (ts : List PoolTask) (st st0 : W1State)
    (hab : (workerLoop1 hl ts st).aborted = false) :
    (runTask hl 0 st0 t).working = true ∧
    (workerLoop1 hl ts st).working = false :=
  ⟨runTask_working hl 0 st0 t, workerLoop1_working hl ts st hab⟩

/-- Witness for the amended C8: a finished task leaves the flag true; a
drained queue leaves the worker with the flag false at its final wait. -/
theorem C8_witness :
    (runTask true 0 ⟨false, [], [], false⟩ ⟨1, .ok⟩).working = true ∧
    (workerLoop1 true [⟨2, .ok⟩] ⟨false, [], [], false⟩).working = false :=
  C8_flag_cleared_only_on_empty_queue true ⟨1, .ok⟩ [⟨2, .ok⟩]
    ⟨false, [], [], false⟩ ⟨false, [], [], false⟩ rfl

/-- C9: the interface operations `reset` / `respawn` (declared at
ThreadPool.h:48-49, modelled from the spec because no definition exists
under src/) re-arm the pool: every worker thread is recreated (alive
again), the pool is restored to a usable state (`terminate_` cleared,
`allowNewTasks_` set), and a subsequent submission is accepted and
enqueued. -/
theorem C9_reset_respawn_rearm (s : ThreadPool) (t : PoolTask) :
    (∀ x ∈ s.respawn.alive, x = true) ∧
    s.respawn.allowNewTasks = true ∧
    s.respawn.terminate = false ∧
    (s.respawn.addTask t).tasks = s.respawn.tasks ++ [t] ∧
    s.reset = s.respawn := by
  refine ⟨?_, rfl, rfl, ?_, rfl⟩
  · intro x hx
    rcases List.mem_map.mp hx with ⟨y, hy, rfl⟩
    rfl
  · rw [addTask_accepting s.respawn t rfl]

/-- The constructor loop counter stays within `UINT_MAX` forever: its
wrap-around arithmetic (ThreadPool.h:89) can never produce a value at or
above `2 ^ 32`, so for `nThreads > UINT_MAX` the guard `i < nThreads`
holds at every iteration and the loop never exits. -/
theorem uintWrap_le_UINT_MAX (i : Nat) : uintWrap i ≤ UINT_MAX := by
  unfold uintWrap UINT_MAX
  have h := Nat.mod_lt i (show 0 < 2 ^ 32 by norm_num)
  omega

/-- Counterexample to C10 as stated.  Construction does NOT succeed for
every worker count: at `workerCount = 2 ^ 32` the 32-bit loop counter
`unsigned int i` (ThreadPool.h:89) wraps back to 0 before ever reaching
`nThreads`, the guard `i < nThreads` never fails, and the constructor never
completes — it produces no pool at all, let alone one with `2 ^ 32` busy
flags. -/
theorem C10_counterexample :
    ThreadPool.construct (2 ^ 32) true = none := by
  rw [ThreadPool.construct, if_neg]
  unfold UINT_MAX
  omega

/-- C10 (amended): construction succeeds for every worker count
`n ≤ UINT_MAX` — including `n = 0`, where the loop at ThreadPool.h:89-92
simply runs zero times — and the fresh pool has exactly `n` busy flags, all
false, with `allowNewTasks_ = true` and `terminate_ = false`
(ThreadPool.h:58-59).  For `n > UINT_MAX` the 32-bit loop counter wraps and
construction never completes. -/
theorem C10_constructor_state (n : Nat) (hl : Bool) (hn : n ≤ UINT_MAX) :
    ThreadPool.construct n hl = some (ThreadPool.new n hl) ∧
    (ThreadPool.new n hl).working.length = n ∧
    (∀ x ∈ (ThreadPool.new n hl).working, x = false) ∧
    (ThreadPool.new n hl).allowNewTasks = true ∧
    (ThreadPool.new n hl).terminate = false ∧
    (ThreadPool.new 0 hl).working = [] ∧
    (ThreadPool.new 0 hl).alive = [] ∧
    (∀ m, UINT_MAX < m → ThreadPool.construct m hl = none) := by
  refine ⟨?_, by simp [ThreadPool.new], ?_, rfl, rfl, rfl, rfl, ?_⟩
  · rw [ThreadPool.construct, if_pos hn]
  · intro x hx
    exact List.eq_of_mem_replicate hx
  · intro m hm
    rw [ThreadPool.construct, if_neg (by omega)]

/-- Witness for the amended C10: a zero-worker pool and a three-worker pool
both construct successfully with the expected fresh state. -/
theorem C10_witness :
    ThreadPool.construct 3 true = some (ThreadPool.new 3 true) ∧
    (ThreadPool.new 3 true).working.length = 3 ∧
    (∀ x ∈ (ThreadPool.new 3 true).working, x = false) ∧
    (ThreadPool.new 3 true).allowNewTasks = true ∧
    (ThreadPool.new 3 true).terminate = false ∧
    (ThreadPool.new 0 true).working = [] ∧
    (ThreadPool.new 0 true).alive = [] ∧
    (∀ m, UINT_MAX < m → ThreadPool.construct m true = none) :=
  C10_constructor_state 3 true (by unfold UINT_MAX; omega)
